import Mathlib

/-!
# Verification of the PDF QnA app (`src/main.py`)

A shallow embedding of the Streamlit PDF question-answering script.
Python strings are modelled as `List Char` (`Str`), external services
(PDF parsing, the embedding/vector-store writes, the LLM calls of the
conversational chain) as fallible function parameters gathered in
environment records, and the Streamlit session state as an explicit
record threaded through the two handlers (the "Upload & Process" button
handler and the "Ask" button handler).

`uuid4` is modelled as a fresh-identifier supply: the session state
carries a counter and the n-th identifier generated in the process is
the number n.  The only property of `uuid4` the program relies on is
that distinct calls yield distinct identifiers, which the counter model
makes exact.
-/

namespace PDFQnA

/-- Python `str`, modelled as a list of characters. -/
abbrev Str := List Char

/-- `langchain.schema.Document` as the script builds it (line 54 of
`src/main.py`): only `page_content` is ever set or read. -/
structure Document where
  page_content : Str
deriving DecidableEq

/-! ## The text splitter

`RecursiveCharacterTextSplitter(chunk_size=1000, chunk_overlap=200)`
(line 52) with its default separators `["\n\n", "\n", " ", ""]`,
`keep_separator=True` and `strip_whitespace=True`.  The definitions
below embed `split_text` of `langchain_text_splitters`: choose the
first separator of the list occurring in the text, split keeping the
separator attached to the following piece, recurse with the remaining
separators on pieces at least `chunk_size` long, and greedily merge
the short pieces into chunks of at most `chunk_size` with at most
`chunk_overlap` carried over between consecutive chunks. -/

/-- Python `str.strip()`: drop whitespace from both ends. -/
def trim (s : Str) : Str :=
  ((s.dropWhile Char.isWhitespace).reverse.dropWhile Char.isWhitespace).reverse

/-- Split `text` at every occurrence of the (non-empty) separator `sep`,
dropping the separator: `re.split(sep, text)` for a literal pattern.
The fuel is the length of the text; every step consumes a character. -/
def splitOnAux (sep : Str) : Nat → Str → Str → List Str
  | 0, t, acc => [acc.reverse ++ t]
  | _ + 1, [], acc => [acc.reverse]
  | fuel + 1, c :: rest, acc =>
    if sep.isPrefixOf (c :: rest) then
      acc.reverse :: splitOnAux sep fuel ((c :: rest).drop sep.length) []
    else
      splitOnAux sep fuel rest (c :: acc)

/-- `re.split("(sep)", text)` with the separator re-attached to the piece
that follows it (`keep_separator=True`), empty pieces dropped; the empty
separator splits into single characters (`list(text)`). -/
def splitKeep (sep : Str) (text : Str) : List Str :=
  if sep.isEmpty then
    text.map (fun c => [c])
  else
    match splitOnAux sep text.length text [] with
    | [] => []
    | p :: ps => (p :: ps.map (fun q => sep ++ q)).filter (fun s => !s.isEmpty)

/-- Does `sep` occur inside `text`?  (`re.search` for a literal pattern.) -/
def occursIn (sep : Str) : Str → Bool
  | [] => sep.isPrefixOf []
  | c :: rest => sep.isPrefixOf (c :: rest) || occursIn sep rest

/-- The separator-selection loop of `_split_text`: the first separator of
the list that is empty or occurs in the text, together with the
separators after it; falling back to `last` when none matches. -/
def chooseSepAux (text : Str) (last : Str) : List Str → Str × List Str
  | [] => (last, [])
  | s :: rest =>
    if s.isEmpty then ([], [])
    else if occursIn s text then (s, rest)
    else chooseSepAux text last rest

/-- Separator selection starting from the full separator list. -/
def chooseSep (text : Str) (seps : List Str) : Str × List Str :=
  chooseSepAux text (seps.getLastD []) seps

/-- `_join_docs`: join the accumulated pieces with the separator, strip
whitespace, and drop the chunk when nothing remains. -/
def joinDocs (sep : Str) (docs : List Str) : Option Str :=
  let text := trim (List.intercalate sep docs)
  if text.isEmpty then none else some text

/-- The overlap-trimming `while` loop of `_merge_splits`: pop pieces from
the front of the current chunk while the running total exceeds
`chunk_overlap`, or the next piece would not fit and the total is
positive. -/
def popLoop (size ov sepLen dLen : Nat) : List Str → Nat → List Str × Nat
  | cur, total =>
    if ov < total ∨
        (size < total + dLen + (if cur.isEmpty then 0 else sepLen) ∧ 0 < total) then
      match cur with
      | [] => ([], total)
      | x :: xs =>
        popLoop size ov sepLen dLen xs
          (total - (x.length + (if xs.isEmpty then 0 else sepLen)))
    else
      (cur, total)

/-- The accumulation loop of `_merge_splits`: `cur` is the current chunk's
pieces, `total` its joined length, `docs` the finished chunks.  When the
next piece would overflow `chunk_size`, the current chunk is emitted and
its tail kept as overlap. -/
def mergeGo (size ov : Nat) (sep : Str) : List Str → List Str → Nat → List Str → List Str
  | [], cur, _, docs => docs ++ (joinDocs sep cur).toList
  | d :: ds, cur, total, docs =>
    let sepLen := sep.length
    let dLen := d.length
    if size < total + dLen + (if cur.isEmpty then 0 else sepLen) ∧ ¬ cur.isEmpty then
      let docs' := docs ++ (joinDocs sep cur).toList
      let ct := popLoop size ov sepLen dLen cur total
      mergeGo size ov sep ds (ct.1 ++ [d])
        (ct.2 + dLen + (if ct.1.isEmpty then 0 else sepLen)) docs'
    else
      mergeGo size ov sep ds (cur ++ [d])
        (total + dLen + (if cur.isEmpty then 0 else sepLen)) docs

/-- `_merge_splits(splits, separator)`. -/
def merge_splits (size ov : Nat) (sep : Str) (splits : List Str) : List Str :=
  mergeGo size ov sep splits [] 0 []

/-- The piece loop of `_split_text`: pieces shorter than `chunk_size` are
collected and merged; longer pieces are re-split with the remaining
separators (`recurse`) when any remain, else emitted whole. -/
def splitLoop (size ov : Nat) (recurse : Str → List Str) (hasNew : Bool) :
    List Str → List Str → List Str → List Str
  | [], good, final =>
    final ++ (if good.isEmpty then [] else merge_splits size ov [] good)
  | s :: ss, good, final =>
    if s.length < size then
      splitLoop size ov recurse hasNew ss (good ++ [s]) final
    else
      let final' := final ++ (if good.isEmpty then [] else merge_splits size ov [] good)
      let final'' := final' ++ (if hasNew then recurse s else [s])
      splitLoop size ov recurse hasNew ss [] final''

/-- `_split_text(text, separators)`; the fuel bounds the depth of the
separator list and is never exhausted for the default separators. -/
def splitTextFuel (size ov : Nat) : Nat → List Str → Str → List Str
  | 0, _, text => [text]
  | fuel + 1, seps, text =>
    let sp := chooseSep text seps
    let splits := splitKeep sp.1 text
    splitLoop size ov (fun s => splitTextFuel size ov fuel sp.2 s) (!sp.2.isEmpty) splits [] []

/-- The default separator list of `RecursiveCharacterTextSplitter`. -/
def defaultSeparators : List Str := [['\n', '\n'], ['\n'], [' '], []]

/-- `RecursiveCharacterTextSplitter(chunk_size, chunk_overlap).split_text`. -/
def split_text (size ov : Nat) (text : Str) : List Str :=
  splitTextFuel size ov (defaultSeparators.length + 1) defaultSeparators text

/-- Modelled from the spec: the "greedy fixed-window with overlap"
chunking rule the spec ascribes to the splitter — take `size` units,
then restart `ov` units before the previous window's end, until the
remaining text fits in one window.  Stated only to be compared with
`split_text`. -/
def fixedWindowFuel (size ov : Nat) : Nat → Str → List Str
  | 0, t => [t]
  | fuel + 1, t =>
    if t.length ≤ size then [t]
    else t.take size :: fixedWindowFuel size ov fuel (t.drop (size - ov))

/-- Modelled from the spec: greedy fixed-window splitting with window
`size` and overlap `ov`. -/
def fixedWindow (size ov : Nat) (t : Str) : List Str :=
  fixedWindowFuel size ov t.length t

/-! ## Session state and the upload handler (lines 39–67) -/

/-- A Python exception, identified by its message. -/
abbrev Err := String

/-- A message of a `ChatMessageHistory`. -/
inductive ChatMsg where
  | human (text : String)
  | ai (text : String)
deriving DecidableEq

/-- The state the script threads between reruns: the two
`st.session_state` entries (`vector_ready`, line 39, and
`chat_history`, line 72), together with the external state the script
mutates — the local filesystem, the remote `pdf_store` collection as a
list of (identifier, chunk text) entries in insertion order, and the
fresh-identifier counter modelling `uuid4`. -/
structure AppState where
  vector_ready : Bool
  chat_history : List (String × String)
  fs : String → Option Str
  collection : List (Nat × Str)
  nextUuid : Nat

/-- Line 71: the question section renders exactly when `vector_ready`. -/
def questionSectionEnabled (st : AppState) : Bool :=
  st.vector_ready

/-- The external services the upload handler calls: `loadPages` is
`PyPDFLoader("temp.pdf").load()` applied to the staged bytes (lines
49–50); `addDocuments` is the embed-and-store network call
`vector_store.add_documents(documents, ids)` (line 65), whose effect on
success — appending the (id, text) entries to the collection — the
handler applies itself. -/
structure UploadEnv where
  loadPages : Str → Except Err (List Document)
  addDocuments : List Document → List Nat → Except Err Unit

/-- Line 53: the per-page chunk list,
`[chunk for page in pages for chunk in splitter.split_text(page.page_content)]`. -/
def ingestTexts (pages : List Document) : List Str :=
  pages.flatMap (fun page => split_text 1000 200 page.page_content)

/-- Line 54: `[Document(page_content=t) for t in texts]`. -/
def mkDocs (texts : List Str) : List Document :=
  texts.map (fun t => { page_content := t })

/-- Line 64: `[str(uuid4()) for _ in range(len(docs))]`, under the
fresh-supply model of `uuid4`: the identifiers `start, …, start+n-1`. -/
def uploadIds (start n : Nat) : List Nat :=
  (List.range n).map (fun i => start + i)

/-- What one run of the upload handler yields: the state after the run
(Streamlit keeps mutations made before an exception), the exception if
one escaped (the handler catches nothing), and the (ids, documents)
pair submitted to `add_documents` when that call was reached. -/
structure UploadOut where
  state : AppState
  err : Except Err Unit
  submitted : Option (List Nat × List Document)

/-- The "Upload & Process" handler, lines 42–67: stage the uploaded
bytes at the fixed path `temp.pdf`, parse, split, submit the chunks
with fresh identifiers, and set `vector_ready` on success. -/
def uploadHandler (env : UploadEnv) (pdfBytes : Str) (st : AppState) : UploadOut :=
  let fs1 : String → Option Str := fun p => if p = "temp.pdf" then some pdfBytes else st.fs p
  let st1 : AppState := { st with fs := fs1 }
  match env.loadPages ((fs1 "temp.pdf").getD []) with
  | .error e => { state := st1, err := .error e, submitted := none }
  | .ok pages =>
    let texts := ingestTexts pages
    let docs := mkDocs texts
    let uuids := uploadIds st1.nextUuid docs.length
    let st2 : AppState := { st1 with nextUuid := st1.nextUuid + docs.length }
    match env.addDocuments docs uuids with
    | .error e => { state := st2, err := .error e, submitted := some (uuids, docs) }
    | .ok _ =>
      { state := { st2 with
          collection := st2.collection ++ uuids.zip texts
          vector_ready := true }
        err := .ok ()
        submitted := some (uuids, docs) }

/-! ## The ask handler (lines 76–148) -/

/-- Line 90: the retriever configuration
`vector_store.as_retriever(search_type="mmr", search_kwargs={"k": 4})`;
no filter key is passed. -/
structure RetrieverConfig where
  search_type : String
  k : Nat
  docFilter : Option String
deriving DecidableEq

/-- The retriever the ask handler builds on every question. -/
def mkRetriever : RetrieverConfig :=
  { search_type := "mmr", k := 4, docFilter := none }

/-- Lines 78–81: `ChatMistralAI(model=…, temperature=0.7, max_retries=2)`. -/
structure ChatModelConfig where
  model : String
  temperature : ℚ
  max_retries : Nat
deriving DecidableEq

/-- The chat model the ask handler constructs. -/
def askChatModel : ChatModelConfig :=
  { model := "mistral-large-latest", temperature := 7 / 10, max_retries := 2 }

/-- The `store` dict of line 129: session identifier → messages. -/
abbrev HistStore := List (String × List ChatMsg)

/-- The read half of `get_session_history` (lines 132–135): the
session's messages, empty when the key is absent. -/
def histGet (store : HistStore) (sid : String) : List ChatMsg :=
  ((store.find? (fun p => decide (p.1 = sid))).map Prod.snd).getD []

/-- Write a session's message list: replace the first entry with the
key, or add a new entry when the key is absent. -/
def setHist : HistStore → String → List ChatMsg → HistStore
  | [], sid, h => [(sid, h)]
  | (k, v) :: rest, sid, h =>
    if k = sid then (k, h) :: rest else (k, v) :: setHist rest sid h

/-- `RunnableWithMessageHistory`'s post-invoke side effect: append the
input message and the answer message to the session's history. -/
def addTurn (store : HistStore) (sid question answer : String) : HistStore :=
  setHist store sid (histGet store sid ++ [ChatMsg.human question, ChatMsg.ai answer])

/-- The external LLM and vector-store calls of the conversational
chain: the question-contextualizing LLM call, the retriever query, and
the answer-generating LLM call. -/
structure ChainEnv where
  contextualize : String → List ChatMsg → Except Err String
  retrieve : RetrieverConfig → List (Nat × Str) → String → Except Err (List Str)
  generate : String → List Str → List ChatMsg → Except Err String

/-- The inner `rag_chain` (lines 104–125):
`create_history_aware_retriever` passes the question through unchanged
when the chat history is empty and otherwise rewrites it with the LLM;
the rewritten question is sent to the retriever and the answer is
generated from the retrieved chunks and the history. -/
def chainInvoke (env : ChainEnv) (retriever : RetrieverConfig)
    (collection : List (Nat × Str)) (input : String) (history : List ChatMsg) :
    Except Err String := do
  let standalone ← if history.isEmpty then pure input else env.contextualize input history
  let docs ← env.retrieve retriever collection standalone
  env.generate input docs history

/-- The inputs of one `conversational_rag_chain.invoke` call (line
147): the configured session identifier, the question, the chat
history supplied to the chain, the retriever configuration, and the
collection queried. -/
structure Invocation where
  session_id : String
  input : String
  chat_history : List ChatMsg
  retriever : RetrieverConfig
  collection : List (Nat × Str)

/-- What one run of the ask handler yields: the state after the run,
the escaped exception if any, the invocation made, and the final value
of the run's local `store` dict (discarded when the run ends). -/
structure AskOut where
  state : AppState
  err : Except Err Unit
  invocation : Invocation
  localStore : HistStore

/-- The "Ask" handler, lines 77–148, run when the question section is
enabled and the question is non-empty.  `store = {}` (line 129) is a
local of the handler, re-created empty on every Streamlit rerun; the
history handed to the chain is read from it under the hard-coded
session identifier `"abc123"` (line 147).  On success the turn is
appended to the local store and to `st.session_state.chat_history`
(line 148). -/
def askHandler (env : ChainEnv) (question : String) (st : AppState) : AskOut :=
  let retriever := mkRetriever
  let store : HistStore := []
  let session_id := "abc123"
  let history := histGet store session_id
  let inv : Invocation :=
    { session_id := session_id, input := question, chat_history := history
      retriever := retriever, collection := st.collection }
  match chainInvoke env retriever st.collection question history with
  | .error e => { state := st, err := .error e, invocation := inv, localStore := store }
  | .ok answer =>
    { state := { st with chat_history := st.chat_history ++ [(question, answer)] }
      err := .ok ()
      invocation := inv
      localStore := addTurn store session_id question answer }

/-! ## Concrete instances for the closed statements -/

/-- 600 letters, a blank line, 600 letters: 1202 characters. -/
def sampleTextA : Str :=
  List.replicate 600 'a' ++ ['\n', '\n'] ++ List.replicate 600 'a'

/-- 601 letters, a blank line, 599 letters: as long as `sampleTextA`,
with the blank line one position later. -/
def sampleTextB : Str :=
  List.replicate 601 'a' ++ ['\n', '\n'] ++ List.replicate 599 'a'

/-- A filesystem with no files. -/
def emptyFS : String → Option Str := fun _ => none

/-- The state of a fresh process: no upload processed, no transcript. -/
def initState : AppState :=
  { vector_ready := false, chat_history := [], fs := emptyFS
    collection := [], nextUuid := 0 }

/-- A PDF whose one page carries the word hello. -/
def demoPdf : Str := ['h', 'e', 'l', 'l', 'o']

/-- Upload services that succeed: the parser yields one page holding
the staged bytes, the store accepts every write. -/
def demoUploadEnv : UploadEnv :=
  { loadPages := fun bytes => .ok [{ page_content := bytes }]
    addDocuments := fun _ _ => .ok () }

/-- Upload services whose parser fails. -/
def failLoadEnv : UploadEnv :=
  { loadPages := fun _ => .error "parse failure"
    addDocuments := fun _ _ => .ok () }

/-- Upload services whose store write fails. -/
def failStoreEnv : UploadEnv :=
  { loadPages := fun bytes => .ok [{ page_content := bytes }]
    addDocuments := fun _ _ => .error "network failure" }

/-- Chain services that succeed: retrieval finds nothing and the
answer echoes the question. -/
def demoChainEnv : ChainEnv :=
  { contextualize := fun input _ => .ok input
    retrieve := fun _ _ _ => .ok []
    generate := fun input _ _ => .ok (String.append "ans:" input) }

/-- Chain services whose answer generation fails. -/
def failChainEnv : ChainEnv :=
  { contextualize := fun input _ => .ok input
    retrieve := fun _ _ _ => .ok []
    generate := fun _ _ _ => .error "llm failure" }

/-- The state after one successful demo upload. -/
def readyState : AppState :=
  (uploadHandler demoUploadEnv demoPdf initState).state

/-! ## Helper lemmas -/

theorem length_uploadIds (start n : Nat) : (uploadIds start n).length = n := by
  simp [uploadIds]

theorem length_mkDocs (texts : List Str) : (mkDocs texts).length = texts.length := by
  simp [mkDocs]

theorem uploadIds_nodup (start n : Nat) : (uploadIds start n).Nodup := by
  exact List.Nodup.map (fun a b hab => by omega) (List.nodup_range n)

theorem mem_uploadIds (start n x : Nat) :
    x ∈ uploadIds start n ↔ start ≤ x ∧ x < start + n := by
  simp only [uploadIds, List.mem_map, List.mem_range]
  constructor
  · rintro ⟨i, hi, rfl⟩
    omega
  · rintro ⟨h1, h2⟩
    exact ⟨x - start, by omega, by omega⟩

/-- The successful run of the upload handler, in closed form. -/
theorem uploadHandler_ok_spec (env : UploadEnv) (pdf : Str) (st : AppState)
    (pages : List Document)
    (hload : env.loadPages pdf = Except.ok pages)
    (hadd : env.addDocuments (mkDocs (ingestTexts pages))
        (uploadIds st.nextUuid (ingestTexts pages).length) = Except.ok ()) :
    uploadHandler env pdf st =
      { state :=
          { vector_ready := true
            chat_history := st.chat_history
            fs := fun p => if p = "temp.pdf" then some pdf else st.fs p
            collection := st.collection ++
              (uploadIds st.nextUuid (ingestTexts pages).length).zip (ingestTexts pages)
            nextUuid := st.nextUuid + (ingestTexts pages).length }
        err := .ok ()
        submitted := some (uploadIds st.nextUuid (ingestTexts pages).length,
          mkDocs (ingestTexts pages)) } := by
  unfold uploadHandler
  simp [hload, length_mkDocs, hadd]

/-- The run of the upload handler whose parse fails, in closed form. -/
theorem uploadHandler_load_error_spec (env : UploadEnv) (pdf : Str) (st : AppState)
    (e : Err) (hload : env.loadPages pdf = Except.error e) :
    uploadHandler env pdf st =
      { state := { st with fs := fun p => if p = "temp.pdf" then some pdf else st.fs p }
        err := .error e
        submitted := none } := by
  unfold uploadHandler
  simp [hload]

/-- The run of the upload handler whose store write fails, in closed form. -/
theorem uploadHandler_store_error_spec (env : UploadEnv) (pdf : Str) (st : AppState)
    (pages : List Document) (e : Err)
    (hload : env.loadPages pdf = Except.ok pages)
    (hadd : env.addDocuments (mkDocs (ingestTexts pages))
        (uploadIds st.nextUuid (ingestTexts pages).length) = Except.error e) :
    uploadHandler env pdf st =
      { state := { st with
          fs := fun p => if p = "temp.pdf" then some pdf else st.fs p
          nextUuid := st.nextUuid + (ingestTexts pages).length }
        err := .error e
        submitted := some (uploadIds st.nextUuid (ingestTexts pages).length,
          mkDocs (ingestTexts pages)) } := by
  unfold uploadHandler
  simp [hload, length_mkDocs, hadd]

set_option maxRecDepth 10000

/-! ## The claims -/

/-- C1: for every upload whose pages split into M chunks, the handler
generates exactly M pairwise-distinct fresh identifiers, submits
exactly M (id, text) documents to `add_documents`, and on success the
collection grows by exactly M stored entries. -/
theorem C1_one_id_per_chunk (env : UploadEnv) (pdf : Str) (st : AppState)
    (pages : List Document) (hload : env.loadPages pdf = Except.ok pages) :
    ((uploadHandler env pdf st).submitted.map (fun s => (s.1.length, s.2.length)) =
      some ((ingestTexts pages).length, (ingestTexts pages).length))
    ∧ (∀ ids docs, (uploadHandler env pdf st).submitted = some (ids, docs) → ids.Nodup)
    ∧ ((uploadHandler env pdf st).err = Except.ok () →
        (uploadHandler env pdf st).state.collection.length
          = st.collection.length + (ingestTexts pages).length) := by
  cases hadd : env.addDocuments (mkDocs (ingestTexts pages))
      (uploadIds st.nextUuid (ingestTexts pages).length) with
  | error e =>
    rw [uploadHandler_store_error_spec env pdf st pages e hload hadd]
    refine ⟨by simp [length_uploadIds, length_mkDocs], ?_, by simp⟩
    rintro ids docs h
    simp only [Option.some.injEq, Prod.mk.injEq] at h
    rw [← h.1]
    exact uploadIds_nodup _ _
  | ok u =>
    cases u
    rw [uploadHandler_ok_spec env pdf st pages hload hadd]
    refine ⟨by simp [length_uploadIds, length_mkDocs], ?_, ?_⟩
    · rintro ids docs h
      simp only [Option.some.injEq, Prod.mk.injEq] at h
      rw [← h.1]
      exact uploadIds_nodup _ _
    · intro _
      simp [List.length_zip, length_uploadIds]

/-- C1 witness: the demo upload of a one-page, one-chunk PDF. -/
theorem C1_one_id_per_chunk_witness :
    ((uploadHandler demoUploadEnv demoPdf initState).submitted.map
        (fun s => (s.1.length, s.2.length)) =
      some ((ingestTexts [{ page_content := demoPdf }]).length,
        (ingestTexts [{ page_content := demoPdf }]).length))
    ∧ (∀ ids docs,
        (uploadHandler demoUploadEnv demoPdf initState).submitted = some (ids, docs) →
          ids.Nodup)
    ∧ ((uploadHandler demoUploadEnv demoPdf initState).err = Except.ok () →
        (uploadHandler demoUploadEnv demoPdf initState).state.collection.length
          = initState.collection.length + (ingestTexts [{ page_content := demoPdf }]).length) :=
  C1_one_id_per_chunk demoUploadEnv demoPdf initState [{ page_content := demoPdf }] rfl

/-- C2, evaluated at the failing input: two questions asked in one
session.  After the first question the turn is appended to the
transcript (and, within that run, to the local keyed store), yet the
chat history handed to the chain on the second question is empty: the
`store` dict of line 129 is re-created on every rerun, so no question
ever sees a prior turn in its `chat_history` input. -/
theorem C2_prior_turn_not_supplied_to_chain :
    ((askHandler demoChainEnv "q1" readyState).state.chat_history = [("q1", "ans:q1")])
    ∧ ((askHandler demoChainEnv "q1" readyState).localStore
        = [("abc123", [ChatMsg.human "q1", ChatMsg.ai "ans:q1"])])
    ∧ ((askHandler demoChainEnv "q2"
          (askHandler demoChainEnv "q1" readyState).state).invocation.chat_history = []) := by
  refine ⟨by decide, by decide, by decide⟩

/-- C3 counterexample: the splitter the handler calls is not the greedy
fixed-window rule.  On 600 letters, a blank line and 600 more letters,
`RecursiveCharacterTextSplitter(1000, 200).split_text` breaks at the
blank line into two 600-character chunks, while the fixed-window rule
yields a 1000-character window and a 402-character remainder. -/
theorem C3_not_fixed_window :
    split_text 1000 200 sampleTextA ≠ fixedWindow 1000 200 sampleTextA := by
  decide

/-- C3 amended: ingestion splits each page's text independently with
chunk size 1000 and overlap 200, but the rule is content-aware: two
texts of the same length whose blank line sits at different positions
chunk with different boundaries. -/
theorem C3_per_page_content_aware_splitting :
    (∀ pages : List Document,
        ingestTexts pages
          = pages.flatMap (fun page => split_text 1000 200 page.page_content))
    ∧ sampleTextA.length = sampleTextB.length
    ∧ (split_text 1000 200 sampleTextA).map List.length = [600, 600]
    ∧ (split_text 1000 200 sampleTextB).map List.length = [601, 599] := by
  exact ⟨fun pages => rfl, by decide, by decide, by decide⟩

/-- The failing run of the ask handler, in closed form. -/
theorem askHandler_error_spec (env : ChainEnv) (q : String) (st : AppState) (e : Err)
    (h : chainInvoke env mkRetriever st.collection q [] = Except.error e) :
    askHandler env q st =
      { state := st
        err := .error e
        invocation := { session_id := "abc123", input := q, chat_history := []
                        retriever := mkRetriever, collection := st.collection }
        localStore := [] } := by
  unfold askHandler
  simp [histGet, h]

/-- The successful run of the ask handler, in closed form. -/
theorem askHandler_ok_spec (env : ChainEnv) (q : String) (st : AppState) (a : String)
    (h : chainInvoke env mkRetriever st.collection q [] = Except.ok a) :
    askHandler env q st =
      { state := { st with chat_history := st.chat_history ++ [(q, a)] }
        err := .ok ()
        invocation := { session_id := "abc123", input := q, chat_history := []
                        retriever := mkRetriever, collection := st.collection }
        localStore := addTurn [] "abc123" q a } := by
  unfold askHandler
  simp [histGet, h]

/-- The filesystem after the upload handler, whatever the external
calls did: the staged bytes at the fixed path, all else untouched. -/
theorem uploadHandler_fs (env : UploadEnv) (pdf : Str) (st : AppState) :
    (uploadHandler env pdf st).state.fs
      = fun p => if p = "temp.pdf" then some pdf else st.fs p := by
  cases hload : env.loadPages pdf with
  | error e => rw [uploadHandler_load_error_spec env pdf st e hload]
  | ok pages =>
    cases hadd : env.addDocuments (mkDocs (ingestTexts pages))
        (uploadIds st.nextUuid (ingestTexts pages).length) with
    | error e => rw [uploadHandler_store_error_spec env pdf st pages e hload hadd]
    | ok u =>
      cases u
      rw [uploadHandler_ok_spec env pdf st pages hload hadd]

/-- The ask handler never touches the filesystem. -/
theorem askHandler_fs (env : ChainEnv) (q : String) (st : AppState) :
    (askHandler env q st).state.fs = st.fs := by
  cases h : chainInvoke env mkRetriever st.collection q [] with
  | error e => rw [askHandler_error_spec env q st e h]
  | ok a => rw [askHandler_ok_spec env q st a h]

/-- C4: re-running ingestion on the identical file performs no
existence check: the second upload's identifiers are all new, the
collection ends with 2×M entries, and the chunk texts are stored
twice over. -/
theorem C4_reupload_no_dedup (env : UploadEnv) (pdf : Str) (st : AppState)
    (pages : List Document)
    (hload : env.loadPages pdf = Except.ok pages)
    (hadd : ∀ docs ids, env.addDocuments docs ids = Except.ok ()) :
    ((uploadHandler env pdf (uploadHandler env pdf st).state).state.collection.length
        = st.collection.length + 2 * (ingestTexts pages).length)
    ∧ ((uploadHandler env pdf (uploadHandler env pdf st).state).state.collection.map Prod.snd
        = st.collection.map Prod.snd ++ ingestTexts pages ++ ingestTexts pages)
    ∧ ((uploadHandler env pdf st).submitted.map Prod.fst
        = some (uploadIds st.nextUuid (ingestTexts pages).length))
    ∧ ((uploadHandler env pdf (uploadHandler env pdf st).state).submitted.map Prod.fst
        = some (uploadIds (st.nextUuid + (ingestTexts pages).length)
            (ingestTexts pages).length))
    ∧ List.Disjoint (uploadIds st.nextUuid (ingestTexts pages).length)
        (uploadIds (st.nextUuid + (ingestTexts pages).length)
          (ingestTexts pages).length) := by
  have h1 := uploadHandler_ok_spec env pdf st pages hload (hadd _ _)
  rw [h1]
  have h2 := uploadHandler_ok_spec env pdf
    { vector_ready := true
      chat_history := st.chat_history
      fs := fun p => if p = "temp.pdf" then some pdf else st.fs p
      collection := st.collection ++
        (uploadIds st.nextUuid (ingestTexts pages).length).zip (ingestTexts pages)
      nextUuid := st.nextUuid + (ingestTexts pages).length }
    pages hload (hadd _ _)
  rw [h2]
  have hzip : ∀ start : Nat,
      ((uploadIds start (ingestTexts pages).length).zip (ingestTexts pages)).map Prod.snd
        = ingestTexts pages := by
    intro start
    exact List.map_snd_zip _ _ (by rw [length_uploadIds])
  have hlen : ∀ start : Nat,
      ((uploadIds start (ingestTexts pages).length).zip (ingestTexts pages)).length
        = (ingestTexts pages).length := by
    intro start
    simp [List.length_zip, length_uploadIds]
  refine ⟨?_, ?_, ?_, ?_, ?_⟩
  · simp only [List.length_append, hlen]
    omega
  · simp only [List.map_append, hzip, List.append_assoc]
  · rfl
  · rfl
  · intro x hx1 hx2
    rw [mem_uploadIds] at hx1 hx2
    omega

/-- C4 witness: the demo one-chunk PDF uploaded twice into a fresh
process. -/
theorem C4_reupload_no_dedup_witness :
    ((uploadHandler demoUploadEnv demoPdf
        (uploadHandler demoUploadEnv demoPdf initState).state).state.collection.length
        = initState.collection.length
            + 2 * (ingestTexts [{ page_content := demoPdf }]).length)
    ∧ ((uploadHandler demoUploadEnv demoPdf
          (uploadHandler demoUploadEnv demoPdf initState).state).state.collection.map Prod.snd
        = initState.collection.map Prod.snd
            ++ ingestTexts [{ page_content := demoPdf }]
            ++ ingestTexts [{ page_content := demoPdf }])
    ∧ ((uploadHandler demoUploadEnv demoPdf initState).submitted.map Prod.fst
        = some (uploadIds initState.nextUuid
            (ingestTexts [{ page_content := demoPdf }]).length))
    ∧ ((uploadHandler demoUploadEnv demoPdf
          (uploadHandler demoUploadEnv demoPdf initState).state).submitted.map Prod.fst
        = some (uploadIds
            (initState.nextUuid + (ingestTexts [{ page_content := demoPdf }]).length)
            (ingestTexts [{ page_content := demoPdf }]).length))
    ∧ List.Disjoint
        (uploadIds initState.nextUuid (ingestTexts [{ page_content := demoPdf }]).length)
        (uploadIds
          (initState.nextUuid + (ingestTexts [{ page_content := demoPdf }]).length)
          (ingestTexts [{ page_content := demoPdf }]).length) :=
  C4_reupload_no_dedup demoUploadEnv demoPdf initState [{ page_content := demoPdf }]
    rfl (fun _ _ => rfl)

/-- C5: every question is retrieved with the maximal-marginal-relevance
search type, the result count fixed at 4, no source filter, against the
whole collection. -/
theorem C5_retriever_mmr_k4_no_filter (env : ChainEnv) (q : String) (st : AppState) :
    (askHandler env q st).invocation.retriever
      = { search_type := "mmr", k := 4, docFilter := none }
    ∧ (askHandler env q st).invocation.collection = st.collection := by
  cases h : chainInvoke env mkRetriever st.collection q [] with
  | error e => rw [askHandler_error_spec env q st e h]; exact ⟨rfl, rfl⟩
  | ok a => rw [askHandler_ok_spec env q st a h]; exact ⟨rfl, rfl⟩

/-- C6: every chain invocation carries the one hard-coded session
identifier. -/
theorem C6_single_hardcoded_session (env : ChainEnv) (q : String) (st : AppState) :
    (askHandler env q st).invocation.session_id = "abc123" := by
  cases h : chainInvoke env mkRetriever st.collection q [] with
  | error e => rw [askHandler_error_spec env q st e h]
  | ok a => rw [askHandler_ok_spec env q st a h]

/-- C7: neither handler catches anything — a parse failure or a
store-write failure escapes the upload handler unchanged, a chain
failure escapes the ask handler unchanged — and the LLM client is
configured with exactly 2 internal retries. -/
theorem C7_failures_propagate_retries_two :
    (∀ (env : UploadEnv) (pdf : Str) (st : AppState) (e : Err),
        env.loadPages pdf = Except.error e →
          (uploadHandler env pdf st).err = Except.error e)
    ∧ (∀ (env : UploadEnv) (pdf : Str) (st : AppState) (pages : List Document) (e : Err),
        env.loadPages pdf = Except.ok pages →
        env.addDocuments (mkDocs (ingestTexts pages))
            (uploadIds st.nextUuid (ingestTexts pages).length) = Except.error e →
          (uploadHandler env pdf st).err = Except.error e)
    ∧ (∀ (env : ChainEnv) (q : String) (st : AppState) (e : Err),
        chainInvoke env mkRetriever st.collection q [] = Except.error e →
          (askHandler env q st).err = Except.error e)
    ∧ askChatModel.max_retries = 2 := by
  refine ⟨?_, ?_, ?_, rfl⟩
  · intro env pdf st e h
    rw [uploadHandler_load_error_spec env pdf st e h]
  · intro env pdf st pages e hload hadd
    rw [uploadHandler_store_error_spec env pdf st pages e hload hadd]
  · intro env q st e h
    rw [askHandler_error_spec env q st e h]

/-- `histGet` on the empty store. -/
theorem histGet_nil (sid : String) : histGet [] sid = [] := rfl

/-- `histGet` on a store with a front entry. -/
theorem histGet_cons (k : String) (v : List ChatMsg) (rest : HistStore) (sid : String) :
    histGet ((k, v) :: rest) sid = if k = sid then v else histGet rest sid := by
  by_cases h : k = sid
  · simp [histGet, List.find?_cons, h]
  · simp [histGet, List.find?_cons, h]

/-- `histGet` after `setHist`: the written session reads the new list,
every other session is untouched. -/
theorem histGet_setHist (store : HistStore) (sid : String) (h : List ChatMsg)
    (sid2 : String) :
    histGet (setHist store sid h) sid2
      = if sid2 = sid then h else histGet store sid2 := by
  induction store with
  | nil =>
    simp only [setHist, histGet_cons, histGet_nil]
    by_cases hs : sid = sid2
    · rw [if_pos hs, if_pos hs.symm]
    · rw [if_neg hs, if_neg (fun hh => hs hh.symm)]
  | cons kv rest ih =>
    obtain ⟨k, v⟩ := kv
    simp only [setHist]
    by_cases hk : k = sid
    · rw [if_pos hk, histGet_cons, histGet_cons]
      by_cases hs : k = sid2
      · rw [if_pos hs, if_pos ((hs.symm.trans hk : sid2 = sid))]
      · rw [if_neg hs, if_neg hs,
          if_neg (fun hh : sid2 = sid => hs (hk.symm ▸ hh.symm : k = sid2))]
    · rw [if_neg hk, histGet_cons, histGet_cons]
      by_cases hs : k = sid2
      · rw [if_pos hs, if_neg (fun hh : sid2 = sid => hk (hs.trans hh)), if_pos hs]
      · rw [if_neg hs, if_neg hs, ih]

/-- `histGet` after `addTurn`: the turn's two messages are appended to
the addressed session, every other session is untouched. -/
theorem histGet_addTurn (store : HistStore) (sid q a : String) (sid2 : String) :
    histGet (addTurn store sid q a) sid2
      = if sid2 = sid then histGet store sid ++ [ChatMsg.human q, ChatMsg.ai a]
        else histGet store sid2 := by
  rw [addTurn, histGet_setHist]

/-- C8: the transcript before a question is a prefix of the transcript
after it, and appending a turn to the keyed history leaves every
session's earlier messages present, unchanged and in order. -/
theorem C8_history_append_only :
    (∀ (env : ChainEnv) (q : String) (st : AppState),
        st.chat_history <+: (askHandler env q st).state.chat_history)
    ∧ (∀ (store : HistStore) (sid q a sid2 : String),
        histGet store sid2 <+: histGet (addTurn store sid q a) sid2) := by
  constructor
  · intro env q st
    cases h : chainInvoke env mkRetriever st.collection q [] with
    | error e =>
      rw [askHandler_error_spec env q st e h]
    | ok a =>
      rw [askHandler_ok_spec env q st a h]
      exact List.prefix_append _ _
  · intro store sid q a sid2
    rw [histGet_addTurn]
    by_cases hs : sid2 = sid
    · subst hs
      simp only [if_pos rfl]
      exact List.prefix_append _ _
    · simp only [if_neg hs]
      exact List.prefix_refl _

/-- C9: each upload stages its bytes at the one fixed path `temp.pdf`,
overwriting what was there; no other path is ever written, the staged
file is never removed, and the ask handler never touches the
filesystem. -/
theorem C9_single_temp_path_frame (uenv : UploadEnv) (pdf : Str) (st : AppState)
    (cenv : ChainEnv) (q : String) :
    ((uploadHandler uenv pdf st).state.fs "temp.pdf" = some pdf)
    ∧ (∀ p : String, p ≠ "temp.pdf" → (uploadHandler uenv pdf st).state.fs p = st.fs p)
    ∧ ((askHandler cenv q st).state.fs = st.fs) := by
  refine ⟨?_, ?_, askHandler_fs cenv q st⟩
  · rw [uploadHandler_fs]
    simp
  · intro p hp
    rw [uploadHandler_fs]
    simp [hp]

/-- C9 witness: the demo upload writes hello at `temp.pdf`, leaves the
path `other` alone, and the demo question leaves the filesystem as it
was. -/
theorem C9_single_temp_path_frame_witness :
    ((uploadHandler demoUploadEnv demoPdf initState).state.fs "temp.pdf" = some demoPdf)
    ∧ ((uploadHandler demoUploadEnv demoPdf initState).state.fs "other" = initState.fs "other")
    ∧ ((askHandler demoChainEnv "q1" initState).state.fs = initState.fs) :=
  have h := C9_single_temp_path_frame demoUploadEnv demoPdf initState demoChainEnv "q1"
  ⟨h.1, h.2.1 "other" (by decide), h.2.2⟩

/-- C10: `vector_ready` becomes true only when the whole upload run,
`add_documents` included, succeeded; when any step fails, the flag and
the question section's enabled state keep their prior values. -/
theorem C10_vector_ready_only_after_store (env : UploadEnv) (pdf : Str) (st : AppState) :
    (∀ e : Err, (uploadHandler env pdf st).err = Except.error e →
        (uploadHandler env pdf st).state.vector_ready = st.vector_ready
        ∧ questionSectionEnabled (uploadHandler env pdf st).state
            = questionSectionEnabled st)
    ∧ ((uploadHandler env pdf st).err = Except.ok () →
        (uploadHandler env pdf st).state.vector_ready = true) := by
  cases hload : env.loadPages pdf with
  | error e0 =>
    rw [uploadHandler_load_error_spec env pdf st e0 hload]
    exact ⟨fun e _ => ⟨rfl, rfl⟩, fun h => by simp at h⟩
  | ok pages =>
    cases hadd : env.addDocuments (mkDocs (ingestTexts pages))
        (uploadIds st.nextUuid (ingestTexts pages).length) with
    | error e0 =>
      rw [uploadHandler_store_error_spec env pdf st pages e0 hload hadd]
      exact ⟨fun e _ => ⟨rfl, rfl⟩, fun h => by simp at h⟩
    | ok u =>
      cases u
      rw [uploadHandler_ok_spec env pdf st pages hload hadd]
      exact ⟨fun e h => by simp at h, fun _ => rfl⟩

end PDFQnA
